import Mathlib

/-!
Shallow embedding of the heatmap visualization core of the 3d-maps
repository: the color LUT builder (lib/heatmap/colorScales), the KDE grid
sampling engine (lib/heatmap/engine), the pooled batched renderers
(lib/heatmap/renderer, street-renderer, intersection-renderer), the layer
registry loaders (lib/heatmap/registry) and the orchestration hook
(hooks/useHeatmapLayers).

JS numbers are modelled as rationals.  The method Number.prototype.toFixed
is modelled as decimal rounding of the rational value (the program only
applies it to nonnegative values, where JS rounds half up).  The host
canvas rasterization (renderKDE) is outside the embedding: the raster it
produces is taken as the input of the sampling stage, exactly as the
sampling code consumes it.
-/

namespace Heatmap

/-- JS value.toFixed(3) read back as a rational: rounding to three decimal
places. -/
def toFixed3 (q : ℚ) : ℚ := ((round (q * 1000) : ℤ) : ℚ) / 1000

/-- JS value.toFixed(2) read back as a rational: rounding to two decimal
places (used only in the LUT cache key). -/
def toFixed2 (q : ℚ) : ℚ := ((round (q * 100) : ℤ) : ℚ) / 100

/-! ### Color scales (src/lib/heatmap/colorScales.ts, src/unnamed/part_008) -/

/-- A gradient color stop: position in the gradient and RGB channels. -/
structure ColorStop where
  pos : ℚ
  r : ℤ
  g : ℤ
  b : ℤ
deriving DecidableEq, Repr

/-- Linear interpolation, as the lerp helper of colorScales. -/
def lerp (a b t : ℚ) : ℚ := a + (b - a) * t

/-- The THERMAL_STOPS gradient table. -/
def THERMAL_STOPS : List ColorStop :=
  [⟨0, 0, 0, 0⟩, ⟨15/100, 0, 0, 255⟩, ⟨35/100, 0, 255, 255⟩,
   ⟨55/100, 0, 255, 0⟩, ⟨75/100, 255, 255, 0⟩, ⟨1, 255, 0, 0⟩]

/-- The VIRIDIS_STOPS gradient table. -/
def VIRIDIS_STOPS : List ColorStop :=
  [⟨0, 68, 1, 84⟩, ⟨25/100, 59, 82, 139⟩, ⟨5/10, 33, 145, 140⟩,
   ⟨75/100, 94, 201, 98⟩, ⟨1, 253, 231, 37⟩]

/-- The INFERNO_STOPS gradient table. -/
def INFERNO_STOPS : List ColorStop :=
  [⟨0, 0, 0, 4⟩, ⟨25/100, 87, 16, 110⟩, ⟨5/10, 188, 55, 84⟩,
   ⟨75/100, 249, 142, 9⟩, ⟨1, 252, 255, 164⟩]

/-- The ColorScaleId union type of lib/heatmap/types. -/
inductive ColorScaleId
  | thermal
  | viridis
  | inferno
deriving DecidableEq, Repr

/-- The SCALE_STOPS record mapping a scale id to its stops. -/
def scaleStops : ColorScaleId → List ColorStop
  | .thermal => THERMAL_STOPS
  | .viridis => VIRIDIS_STOPS
  | .inferno => INFERNO_STOPS

/-- The bracketing loop of sampleGradient: find two consecutive stops a, b
with a.pos ≤ t ≤ b.pos. -/
def findBracket (t : ℚ) : List ColorStop → Option (ColorStop × ColorStop)
  | a :: b :: rest =>
      if a.pos ≤ t ∧ t ≤ b.pos then some (a, b) else findBracket t (b :: rest)
  | _ => none

/-- sampleGradient from colorScales: clamp to the first and last stop,
otherwise round-lerp between the bracketing stops. -/
def sampleGradient (stops : List ColorStop) (t : ℚ) : ℤ × ℤ × ℤ :=
  match stops with
  | [] => (0, 0, 0)
  | s0 :: rest =>
    let last := (s0 :: rest).getLast (by simp)
    if t ≤ s0.pos then (s0.r, s0.g, s0.b)
    else if last.pos ≤ t then (last.r, last.g, last.b)
    else
      match findBracket t (s0 :: rest) with
      | some (a, b) =>
          let localT := (t - a.pos) / (b.pos - a.pos)
          (round (lerp (a.r : ℚ) (b.r : ℚ) localT),
           round (lerp (a.g : ℚ) (b.g : ℚ) localT),
           round (lerp (a.b : ℚ) (b.b : ℚ) localT))
      | none => (last.r, last.g, last.b)

/-- The value of one rgba(r, g, b, a) string produced by the program:
integer channels r, g, b and a rational alpha (the alpha as written by
toFixed(3) and read back by parseFloat). -/
structure Rgba where
  r : ℤ
  g : ℤ
  b : ℤ
  a : ℚ
deriving DecidableEq, Repr

/-- One entry of the color LUT: entry i of buildColorLUT, with t = i/255,
channels from sampleGradient and alpha (t * opacity).toFixed(3). -/
def lutEntry (stops : List ColorStop) (opacity : ℚ) (i : ℕ) : Rgba :=
  let t : ℚ := (i : ℚ) / 255
  let c := sampleGradient stops t
  ⟨c.1, c.2.1, c.2.2, toFixed3 (t * opacity)⟩

/-- buildColorLUT without its cache: the 256-entry table itself. -/
def buildColorLUT (scaleId : ColorScaleId) (opacity : ℚ) : List Rgba :=
  (List.range 256).map (lutEntry (scaleStops scaleId) opacity)

/-- The module-level lutCache of colorScales, keyed by scale id and
opacity.toFixed(2). -/
abbrev LutCache := List ((ColorScaleId × ℚ) × List Rgba)

/-- lutCache.get on the modelled cache. -/
def lutCacheFind (cache : LutCache) (key : ColorScaleId × ℚ) : Option (List Rgba) :=
  (cache.find? (fun e => decide (e.1 = key))).map (·.2)

/-- buildColorLUT with its cache: return the cached table when the key
(scaleId, opacity.toFixed(2)) is present, otherwise build and store. -/
def buildColorLUTCached (cache : LutCache) (scaleId : ColorScaleId) (opacity : ℚ) :
    List Rgba × LutCache :=
  let key := (scaleId, toFixed2 opacity)
  match lutCacheFind cache key with
  | some lut => (lut, cache)
  | none =>
      let lut := buildColorLUT scaleId opacity
      (lut, (key, lut) :: cache)

/-! ### Constants (src/lib/heatmap/constants.ts) -/

/-- GeoBounds from lib/heatmap/types. -/
structure GeoBounds where
  north : ℚ
  south : ℚ
  east : ℚ
  west : ℚ
deriving DecidableEq, Repr

/-- SF_BOUNDS from constants.ts. -/
def SF_BOUNDS : GeoBounds := ⟨(37.812 : ℚ), (37.708 : ℚ), (-122.357 : ℚ), (-122.517 : ℚ)⟩

/-- KDE_CANVAS_SIZE from constants.ts. -/
def KDE_CANVAS_SIZE : ℕ := 512

/-- DEFAULT_BLUR_RADIUS from constants.ts. -/
def DEFAULT_BLUR_RADIUS : ℕ := 25

/-- DEFAULT_GRID_RESOLUTION from constants.ts. -/
def DEFAULT_GRID_RESOLUTION : ℕ := 75

/-- DEFAULT_INTENSITY_THRESHOLD from constants.ts. -/
def DEFAULT_INTENSITY_THRESHOLD : ℕ := 10

/-- POLYGON_BATCH_SIZE from constants.ts. -/
def POLYGON_BATCH_SIZE : ℕ := 200

/-- DEFAULT_LAYER_OPACITY from constants.ts. -/
def DEFAULT_LAYER_OPACITY : ℚ := (0.55 : ℚ)

/-- HEATMAP_ALTITUDE from constants.ts. -/
def HEATMAP_ALTITUDE : ℚ := 3

/-! ### Data model (src/lib/heatmap/types.ts) -/

/-- HeatmapPoint. -/
structure HeatmapPoint where
  lat : ℚ
  lng : ℚ
  intensity : ℚ
deriving DecidableEq, Repr

/-- A bare lat/lng pair (street segment coordinates). -/
structure LatLng where
  lat : ℚ
  lng : ℚ
deriving DecidableEq, Repr

/-- StreetSegment. -/
structure StreetSegment where
  coordinates : List LatLng
  score : ℚ
deriving DecidableEq, Repr

/-- ScoredIntersection. -/
structure ScoredIntersection where
  lat : ℚ
  lng : ℚ
  score : ℚ
deriving DecidableEq, Repr

/-- RenderMode. -/
inductive RenderMode
  | grid
  | streets
  | intersections
deriving DecidableEq, Repr

/-- HeatmapDataSource: the tagged union of data source descriptors. -/
inductive HeatmapDataSource
  | inline (points : List HeatmapPoint)
  | url (u : String)
  | streets (u : String)
  | intersections (u : String)
deriving DecidableEq, Repr

/-- HeatmapLayerConfig (display labels omitted: they never feed rendering). -/
structure HeatmapLayerConfig where
  id : String
  colorScale : ColorScaleId
  renderMode : RenderMode
  blurRadius : ℕ
  gridResolution : ℕ
  bounds : GeoBounds
  minIntensityThreshold : ℕ
  opacity : ℚ
deriving DecidableEq, Repr

/-- RegisteredLayer: a config paired with its data source. -/
structure RegisteredLayer where
  config : HeatmapLayerConfig
  source : HeatmapDataSource
deriving DecidableEq, Repr

/-- HeatmapGrid: the precomputed cell grid; a cell is none below the
intensity threshold. -/
structure HeatmapGrid where
  layerId : String
  bounds : GeoBounds
  rows : ℕ
  cols : ℕ
  cells : List (Option Rgba)
deriving DecidableEq, Repr

/-! ### KDE engine sampling (src/lib/heatmap/engine.ts, src/unnamed/part_009)

renderKDE paints radial gradients on a host canvas; the embedding takes its
readback (the ImageData) as input, exactly as sampleGrid consumes it. -/

/-- The ImageData readback of the KDE canvas: dimensions and the flat RGBA
byte array (a function from flat index to byte). -/
structure ImageDataM where
  width : ℕ
  height : ℕ
  data : ℕ → ℕ

/-- Math.floor(((k + 0.5) / n) * dim): the canvas pixel coordinate of the
centre of grid cell k of n along an axis of dim pixels. -/
def samplePx (n dim k : ℕ) : ℤ := ⌊(((k : ℚ) + 1/2) / (n : ℚ)) * (dim : ℚ)⌋

/-- The loop body of sampleGrid for one cell: sample the red channel at the
cell centre, clamp to 255, and either mark the cell absent (below the
threshold) or color it through the LUT. -/
def sampleCell (img : ImageDataM) (rows cols : ℕ) (scaleId : ColorScaleId)
    (opacity : ℚ) (threshold : ℕ) (row col : ℕ) : Option Rgba :=
  let px := (samplePx cols img.width col).toNat
  let py := (samplePx rows img.height row).toNat
  let idx := (py * img.width + px) * 4
  let intensity := min 255 (img.data idx)
  if intensity < threshold then none
  else some ((buildColorLUT scaleId opacity).getD intensity ⟨0, 0, 0, 0⟩)

/-- sampleGrid from engine.ts: the row-major rows × cols cell list. -/
def sampleGrid (img : ImageDataM) (rows cols : ℕ) (scaleId : ColorScaleId)
    (opacity : ℚ) (threshold : ℕ) : List (Option Rgba) :=
  (List.range rows).flatMap (fun row =>
    (List.range cols).map (sampleCell img rows cols scaleId opacity threshold row))

/-- computeHeatmapGrid from engine.ts, with the canvas readback passed in
place of the renderKDE call. -/
def computeHeatmapGrid (img : ImageDataM) (config : HeatmapLayerConfig) : HeatmapGrid :=
  { layerId := config.id
    bounds := config.bounds
    cols := config.gridResolution
    rows := config.gridResolution
    cells := sampleGrid img config.gridResolution config.gridResolution
      config.colorScale config.opacity config.minIntensityThreshold }

/-! ### Grid renderer geometry (src/lib/heatmap/renderer.ts) -/

/-- A coordinate of a primitive ring: lat, lng, altitude. -/
structure Coord where
  lat : ℚ
  lng : ℚ
  altitude : ℚ
deriving DecidableEq, Repr

/-- CellData from renderer.ts: ring coordinates plus fill color. -/
structure CellData where
  coords : List Coord
  fillColor : Rgba
deriving DecidableEq, Repr

/-- The closed rectangular ring of one grid cell, as built in the loop body
of HeatmapRenderer.buildCellData. -/
def cellCorners (bounds : GeoBounds) (rows cols row col : ℕ) : List Coord :=
  let latStep := (bounds.north - bounds.south) / (rows : ℚ)
  let lngStep := (bounds.east - bounds.west) / (cols : ℚ)
  let south := bounds.north - ((row : ℚ) + 1) * latStep
  let north := bounds.north - (row : ℚ) * latStep
  let west := bounds.west + (col : ℚ) * lngStep
  let east := bounds.west + ((col : ℚ) + 1) * lngStep
  [⟨south, west, HEATMAP_ALTITUDE⟩, ⟨south, east, HEATMAP_ALTITUDE⟩,
   ⟨north, east, HEATMAP_ALTITUDE⟩, ⟨north, west, HEATMAP_ALTITUDE⟩,
   ⟨south, west, HEATMAP_ALTITUDE⟩]

/-- HeatmapRenderer.buildCellData: one descriptor per non-null cell, in
row-major order; null cells are skipped.  Indexing outside the cells array
is treated as a skip (the engine always produces rows * cols cells). -/
def buildCellData (g : HeatmapGrid) : List CellData :=
  (List.range g.rows).flatMap (fun row =>
    (List.range g.cols).filterMap (fun col =>
      match g.cells[row * g.cols + col]? with
      | some (some color) => some ⟨cellCorners g.bounds g.rows g.cols row col, color⟩
      | _ => none))

/-! ### Renderer setOpacity (shared by all three renderers)

Each renderer parses the current color string with the regex
rgba((d+), s*(d+), s*(d+), s*([d.]+)) — every color the program writes
matches it — and replaces the alpha channel. -/

/-- A live scene primitive as the renderers mutate it: its coordinate ring
and its current color. -/
structure Prim where
  coords : List Coord
  color : Rgba
deriving DecidableEq, Repr

/-- The alpha replacement of setOpacity:
Math.min(opacity, baseA > 0 ? opacity : 0).toFixed(3), keeping r, g, b. -/
def setAlpha (opacity : ℚ) (c : Rgba) : Rgba :=
  { c with a := toFixed3 (min opacity (if 0 < c.a then opacity else 0)) }

/-- setOpacity over the whole pool: update each live primitive color in
place; coordinates are untouched. -/
def rendererSetOpacity (opacity : ℚ) (pool : List Prim) : List Prim :=
  pool.map (fun p => { p with color := setAlpha opacity p.color })

/-! ### Pooled batched render with cancellation (shared render algorithm)

All three renderers run the same algorithm: abort any in-flight run, build
the descriptor list, then per batch of POLYGON_BATCH_SIZE descriptors
recycle pooled primitives in place (index below the pool size captured at
the start of the run) or create and attach new ones, yielding to the host
between batches; at the end detach and truncate the excess tail.  The
abort signal is checked at every suspension point before any mutation.

The machinery is generic in the descriptor type D and the primitive type P
together with the descriptor-to-primitive mapping (buildCellData output for
the grid renderer, segment or intersection data for the other two), which
is how one model covers all three renderers. -/

/-- The state of one in-flight render run: its descriptor list, next
descriptor index, the pool size captured at its start, the generation of
its abort token, whether it got past the library import, and whether it
has returned. -/
structure RenderRun (D : Type) where
  descs : List D
  idx : ℕ
  poolStart : ℕ
  gen : ℕ
  started : Bool
  done : Bool
deriving DecidableEq, Repr

/-- The renderer state shared by runs: the primitive pool (the attached
primitives, in order) and the current abort generation; a run whose gen
differs from curGen has had its abort token signalled. -/
structure RendererState (P : Type) where
  pool : List P
  curGen : ℕ
deriving DecidableEq, Repr

/-- The synchronous prefix of render(data): signal the abort token of any
in-flight run and allocate a fresh one for this run. -/
def startRender {D P : Type} (st : RendererState P) (descs : List D) :
    RendererState P × RenderRun D :=
  ({ st with curGen := st.curGen + 1 },
   { descs := descs, idx := 0, poolStart := 0, gen := st.curGen + 1,
     started := false, done := false })

/-- Writing descriptor i: recycle the pooled primitive in place when i is
below the captured pool size, otherwise create, attach and append. -/
def putPrim {P : Type} (poolStart : ℕ) (pool : List P) (i : ℕ) (p : P) : List P :=
  if i < poolStart then pool.set i p else pool ++ [p]

/-- The inner batch loop: write cnt descriptors starting at index i. -/
def writeBatch {D P : Type} (mk : D → P) (poolStart : ℕ) (descs : List D) :
    List P → ℕ → ℕ → List P
  | pool, _, 0 => pool
  | pool, i, cnt + 1 =>
    match descs[i]? with
    | none => pool
    | some d => writeBatch mk poolStart descs (putPrim poolStart pool i (mk d)) (i + 1) cnt

/-- One atomic resumption of a render run, from one suspension point to the
next: first the abort check (return without mutation when the token is
signalled), then on the first resumption the pool-size capture, one batch
of writes, and — when the descriptors are exhausted — the tail truncation,
which happens in the same atomic segment as the last batch. -/
def stepRun {D P : Type} (mk : D → P) (st : RendererState P) (r : RenderRun D) :
    RendererState P × RenderRun D :=
  if r.done then (st, r)
  else if r.gen ≠ st.curGen then (st, { r with done := true })
  else
    let start := if r.started then r.poolStart else st.pool.length
    let n := r.descs.length
    let e := min (r.idx + POLYGON_BATCH_SIZE) n
    let pool1 := writeBatch mk start r.descs st.pool r.idx (e - r.idx)
    if e < n then
      ({ st with pool := pool1 },
       { r with started := true, poolStart := start, idx := e })
    else
      let pool2 := if n < start then pool1.take n else pool1
      ({ st with pool := pool2 },
       { r with started := true, poolStart := start, idx := e, done := true })

/-- Run a single render for a given number of resumptions (it stops early
once done). -/
def execRun {D P : Type} (mk : D → P) :
    ℕ → RendererState P → RenderRun D → RendererState P × RenderRun D
  | 0, st, r => (st, r)
  | fuel + 1, st, r =>
    if r.done then (st, r)
    else
      let p := stepRun mk st r
      execRun mk fuel p.1 p.2

/-- Interleave two runs under a schedule of host wake-ups: false resumes
the first run, true resumes the second. -/
def execSched {D P : Type} (mk : D → P) :
    List Bool → RendererState P → RenderRun D → RenderRun D →
    RendererState P × RenderRun D × RenderRun D
  | [], st, ra, rb => (st, ra, rb)
  | false :: s, st, ra, rb =>
    let p := stepRun mk st ra
    execSched mk s p.1 p.2 rb
  | true :: s, st, ra, rb =>
    let p := stepRun mk st rb
    execSched mk s p.1 ra p.2

/-- The render(A) then render(B) race: run A for fA resumptions, issue
render(B) while A is in flight, then interleave the two runs under an
arbitrary schedule. -/
def cancellationScenario {D P : Type} (mk : D → P) (p0 : List P) (g0 : ℕ)
    (dA dB : List D) (fA : ℕ) (sched : List Bool) :
    RendererState P × RenderRun D × RenderRun D :=
  let s0 : RendererState P := ⟨p0, g0⟩
  let a0 := startRender s0 dA
  let a1 := execRun mk fA a0.1 a0.2
  let b0 := startRender a1.1 dB
  execSched mk sched b0.1 a1.2 b0.2

/-- A completed, uncancelled render: from state st, render descs runs to
completion (its run ends done) and leaves state st2. -/
def CompletesTo {D P : Type} (mk : D → P) (st : RendererState P) (descs : List D)
    (st2 : RendererState P) : Prop :=
  ∃ fuel,
    (execRun mk fuel (startRender st descs).1 (startRender st descs).2).1 = st2 ∧
    (execRun mk fuel (startRender st descs).1 (startRender st descs).2).2.done = true

/-- A sequence of consecutive render() calls, each run to completion; sts
collects the state after each one. -/
def ChainRenders {D P : Type} (mk : D → P) :
    RendererState P → List (List D) → List (RendererState P) → Prop
  | _, [], sts => sts = []
  | st, d :: ds, sts =>
    ∃ st2 rest, sts = st2 :: rest ∧ CompletesTo mk st d st2 ∧ ChainRenders mk st2 ds rest

/-! ### Layer registry and loaders (src/lib/heatmap/registry.ts, src/unnamed/part_004) -/

/-- LAYER_REGISTRY: the three registered layers. -/
def LAYER_REGISTRY : List RegisteredLayer :=
  [{ config := { id := "walkability", colorScale := .thermal, renderMode := .grid,
                 blurRadius := DEFAULT_BLUR_RADIUS, gridResolution := DEFAULT_GRID_RESOLUTION,
                 bounds := SF_BOUNDS, minIntensityThreshold := DEFAULT_INTENSITY_THRESHOLD,
                 opacity := DEFAULT_LAYER_OPACITY }
     source := .inline [] },
   { config := { id := "crime", colorScale := .inferno, renderMode := .intersections,
                 blurRadius := DEFAULT_BLUR_RADIUS, gridResolution := DEFAULT_GRID_RESOLUTION,
                 bounds := SF_BOUNDS, minIntensityThreshold := DEFAULT_INTENSITY_THRESHOLD,
                 opacity := DEFAULT_LAYER_OPACITY }
     source := .intersections "/api/heatmap/intersections" },
   { config := { id := "traffic", colorScale := .thermal, renderMode := .streets,
                 blurRadius := DEFAULT_BLUR_RADIUS, gridResolution := DEFAULT_GRID_RESOLUTION,
                 bounds := SF_BOUNDS, minIntensityThreshold := DEFAULT_INTENSITY_THRESHOLD,
                 opacity := DEFAULT_LAYER_OPACITY }
     source := .streets "/api/heatmap/streets" }]

/-- getLayerConfig: find a registered layer config by id. -/
def getLayerConfig (reg : List RegisteredLayer) (layerId : String) : Option HeatmapLayerConfig :=
  (reg.find? (fun e => decide (e.config.id = layerId))).map (·.config)

/-- A value held by a data cache: loaded raw data, or (in the hook cache)
a computed grid. -/
inductive CacheVal
  | pts (points : List HeatmapPoint)
  | segs (segments : List StreetSegment)
  | dots (intersections : List ScoredIntersection)
  | grid (g : HeatmapGrid)
deriving DecidableEq, Repr

/-- The in-memory Map from layer id to loaded data. -/
abbrev DataCache := List (String × CacheVal)

/-- Map.get on the cache. -/
def cacheLookup (c : DataCache) (layerId : String) : Option CacheVal :=
  (c.find? (fun e => decide (e.1 = layerId))).map (·.2)

/-- Map.set on the cache. -/
def cacheInsert (c : DataCache) (layerId : String) (v : CacheVal) : DataCache :=
  (layerId, v) :: c.filter (fun e => decide (e.1 ≠ layerId))

/-- Map.delete on the cache. -/
def cacheErase (c : DataCache) (layerId : String) : DataCache :=
  c.filter (fun e => decide (e.1 ≠ layerId))

/-- The network outcome of one fetch: a parsed body, a non-2xx status, or
a body that res.json() fails to parse. -/
inductive FetchOutcome (α : Type)
  | ok (body : α)
  | httpError (status : ℕ)
  | malformed
deriving DecidableEq, Repr

/-- Whether the fetch failed (non-success response or malformed body). -/
def FetchOutcome.failed {α : Type} : FetchOutcome α → Prop
  | .ok _ => False
  | _ => True

instance {α : Type} (f : FetchOutcome α) : Decidable f.failed := by
  cases f <;> simp [FetchOutcome.failed] <;> infer_instance

/-- fetchJSON from registry.ts: throw on a non-ok response; res.json()
throws on a malformed body. -/
def fetchJSON {α : Type} : FetchOutcome α → Except String α
  | .ok body => .ok body
  | .httpError _ => .error "Failed to fetch heatmap data"
  | .malformed => .error "malformed response body"

/-- loadLayerData: cache hit returns the cached value as is; otherwise
resolve the registry entry, run the inline generator (gens) or points, or
fetch for a url source, and cache the result.  The network is passed in as
the outcome the single fetch would produce. -/
def loadLayerData (reg : List RegisteredLayer) (gens : String → Option (List HeatmapPoint))
    (cache : DataCache) (layerId : String) (fetch : FetchOutcome (List HeatmapPoint)) :
    Except String CacheVal × DataCache :=
  match cacheLookup cache layerId with
  | some v => (.ok v, cache)
  | none =>
    match reg.find? (fun e => decide (e.config.id = layerId)) with
    | none => (.error "layer not found in registry", cache)
    | some entry =>
      match entry.source with
      | .inline points =>
        let pts := match gens layerId with
          | some g => g
          | none => points
        (.ok (.pts pts), cacheInsert cache layerId (.pts pts))
      | .url _ =>
        match fetchJSON fetch with
        | .ok pts => (.ok (.pts pts), cacheInsert cache layerId (.pts pts))
        | .error msg => (.error msg, cache)
      | _ => (.error "loadLayerData called on a non-grid layer", cache)

/-- loadStreetData: cache hit, registry and source-type check, fetch,
cache the result. -/
def loadStreetData (reg : List RegisteredLayer) (cache : DataCache) (layerId : String)
    (fetch : FetchOutcome (List StreetSegment)) : Except String CacheVal × DataCache :=
  match cacheLookup cache layerId with
  | some v => (.ok v, cache)
  | none =>
    match reg.find? (fun e => decide (e.config.id = layerId)) with
    | some entry =>
      match entry.source with
      | .streets _ =>
        match fetchJSON fetch with
        | .ok segs => (.ok (.segs segs), cacheInsert cache layerId (.segs segs))
        | .error msg => (.error msg, cache)
      | _ => (.error "layer is not a streets source", cache)
    | none => (.error "layer is not a streets source", cache)

/-- loadIntersectionData: cache hit, registry and source-type check, fetch,
cache the result. -/
def loadIntersectionData (reg : List RegisteredLayer) (cache : DataCache) (layerId : String)
    (fetch : FetchOutcome (List ScoredIntersection)) : Except String CacheVal × DataCache :=
  match cacheLookup cache layerId with
  | some v => (.ok v, cache)
  | none =>
    match reg.find? (fun e => decide (e.config.id = layerId)) with
    | some entry =>
      match entry.source with
      | .intersections _ =>
        match fetchJSON fetch with
        | .ok dts => (.ok (.dots dts), cacheInsert cache layerId (.dots dts))
        | .error msg => (.error msg, cache)
      | _ => (.error "layer is not an intersections source", cache)
    | none => (.error "layer is not an intersections source", cache)

/-! ### Orchestration controller (src/hooks/useHeatmapLayers.ts) -/

/-- The controller state of useHeatmapLayers: the active layer id, the
loading flag, the live renderer (none when cleared; its pool of attached
primitives otherwise), the hook data cache (computed grids for grid mode,
raw lists otherwise) and the opacity value. -/
structure CtrlState where
  activeId : Option String
  isLoading : Bool
  renderer : Option (List Prim)
  dataCache : DataCache
  opacity : ℚ
deriving DecidableEq, Repr

/-- The catch branch of activateLayer: clear the renderer (detaching its
pooled primitives), drop the renderer reference and revert to no active
layer; the finally branch clears the loading flag. -/
def activateFail (st : CtrlState) : CtrlState :=
  { st with renderer := none, activeId := none, isLoading := false }

/-- activateLayer from useHeatmapLayers: mark loading and set the active
id, look up the config, create the renderer (clearing the previous one),
resolve data from the hook cache or the awaited load, render, and clear
the loading flag; any failure lands in the catch branch.  The awaited
load-and-compute step is passed in as loadResult, and the completed render
of a data value as renderOf (the renderer theorems characterise it). -/
def activateLayer (reg : List RegisteredLayer) (renderOf : CacheVal → List Prim)
    (st : CtrlState) (layerId : String) (mapReady : Bool)
    (loadResult : Except String CacheVal) : CtrlState :=
  if mapReady = false then st
  else
    let st1 := { st with isLoading := true, activeId := some layerId }
    match getLayerConfig reg layerId with
    | none => activateFail st1
    | some _ =>
      let st2 := { st1 with renderer := some [] }
      match cacheLookup st2.dataCache layerId with
      | some v => { st2 with renderer := some (renderOf v), isLoading := false }
      | none =>
        match loadResult with
        | .error _ => activateFail st2
        | .ok v =>
          { st2 with dataCache := cacheInsert st2.dataCache layerId v,
                     renderer := some (renderOf v), isLoading := false }

/-- setOpacity from useHeatmapLayers: store the new value; when a renderer
is live and a layer is active, run the renderer fast path and invalidate
the cached data of the active layer. -/
def hookSetOpacity (st : CtrlState) (value : ℚ) : CtrlState :=
  let st1 := { st with opacity := value }
  match st.renderer, st.activeId with
  | some pool, some layerId =>
    { st1 with renderer := some (rendererSetOpacity value pool),
               dataCache := cacheErase st1.dataCache layerId }
  | _, _ => st1

/-! ### Restoration effects (src/hooks/useHeatmapLayers.ts lines 89-99 and 233-238)

Two effects govern restoration: one, depending on the surface reference,
resets the restoredRef guard whenever the reference changes; the other,
depending on the surface reference and the activateLayer callback
identity, performs the restoration activation when the surface and an
active id are present and the guard is clear.  Effects re-run when a
dependency changes, in declaration order. -/

/-- The restoration-relevant hook state: the surface reference (modelled
by an identity number), the externally owned active layer id, the
restoredRef guard and a count of restoration activation passes. -/
structure HookRestoreState where
  mapEl : Option ℕ
  activeId : Option String
  restored : Bool
  activations : ℕ
deriving DecidableEq, Repr

/-- The body of the restore effect: return unless the surface and an
active id are present and the guard is clear; otherwise set the guard and
activate. -/
def runRestoreEffect (st : HookRestoreState) : HookRestoreState :=
  match st.mapEl, st.activeId with
  | some _, some _ =>
    if st.restored then st
    else { st with restored := true, activations := st.activations + 1 }
  | _, _ => st

/-- A dependency change the effects react to: a new surface reference, or
a new activateLayer callback identity (from any state the callback closes
over). -/
inductive HookEvent
  | surface (m : Option ℕ)
  | callbackRerun
deriving DecidableEq, Repr

/-- One commit: on a surface change both effects re-run in order (the
guard reset, then the restore effect); on a callback identity change only
the restore effect re-runs. -/
def hookStep (st : HookRestoreState) (e : HookEvent) : HookRestoreState :=
  match e with
  | .surface m =>
    if m = st.mapEl then st
    else runRestoreEffect { st with mapEl := m, restored := false }
  | .callbackRerun => runRestoreEffect st

/-! ### Score-indexed LUT lookup (street and intersection renderers)

Both renderers compute Math.round(score * 255) and index the LUT with it. -/

/-- The LUT index Math.round(score * 255) computed for each street segment
and each intersection dot. -/
def colorIdx (score : ℚ) : ℤ := round (score * 255)

/-- The color lut[colorIdx] the street and intersection renderers assign,
as a lookup that is none when the index is out of bounds. -/
def scoreColor (scaleId : ColorScaleId) (opacity : ℚ) (score : ℚ) : Option Rgba :=
  (buildColorLUT scaleId opacity)[(colorIdx score).toNat]?

/-- The run invariant of the pooled batched render: the run carries its
descriptors and a live generation token; while running, the pool is the
processed prefix of the descriptors (as primitives) followed by the
untouched old tail; when done, the pool is exactly the rendered
descriptors. -/
def RunInv {D P : Type} (mk : D → P) (p0 : List P) (descs : List D)
    (st : RendererState P) (r : RenderRun D) : Prop :=
  r.descs = descs ∧ r.gen = st.curGen ∧ r.idx ≤ descs.length ∧
  (r.done = false → r.started = false → r.idx = 0 ∧ st.pool = p0) ∧
  (r.done = false → r.started = true →
    r.poolStart = p0.length ∧ st.pool = (descs.take r.idx).map mk ++ p0.drop r.idx) ∧
  (r.done = true → st.pool = descs.map mk)

/-- The concrete controller state of the C4 scenario: the walkability grid
layer active at the default opacity 0.55, one live primitive colored
through the thermal LUT at intensity 10, and its computed grid cached. -/
def c4State : CtrlState :=
  { activeId := some "walkability"
    isLoading := false
    renderer := some [⟨[], lutEntry (scaleStops .thermal) DEFAULT_LAYER_OPACITY 10⟩]
    dataCache := [("walkability", .grid ⟨"walkability", SF_BOUNDS, 0, 0, []⟩)]
    opacity := DEFAULT_LAYER_OPACITY }

/-- The raster intensity sampleGrid reads for one cell: the red channel at
the canvas pixel of the cell centre, clamped to 255. -/
def centerIntensity (img : ImageDataM) (rows cols row col : ℕ) : ℕ :=
  min 255 (img.data (((samplePx rows img.height row).toNat * img.width +
    (samplePx cols img.width col).toNat) * 4))

/-! ### Basic LUT lemmas -/

/-- The LUT has 256 entries. -/
lemma buildColorLUT_length (s : ColorScaleId) (o : ℚ) : (buildColorLUT s o).length = 256 := by
  simp [buildColorLUT]

/-- In-bounds LUT lookup yields the corresponding lutEntry. -/
lemma buildColorLUT_getElem (s : ColorScaleId) (o : ℚ) (i : ℕ) (h : i < 256) :
    (buildColorLUT s o)[i]? = some (lutEntry (scaleStops s) o i) := by
  simp [buildColorLUT, List.getElem?_range h]

/-- Out-of-bounds LUT lookup is undefined. -/
lemma buildColorLUT_getElem_none (s : ColorScaleId) (o : ℚ) (i : ℕ) (h : 256 ≤ i) :
    (buildColorLUT s o)[i]? = none := by
  apply List.getElem?_eq_none
  simp [buildColorLUT_length, h]

/-- Claim C6 (amended): buildColorLUT returns a 256-entry table; a second
call through the cache with identical (scale, opacity) returns the
identical table object; for any two opacities the r, g, b channels of
every entry agree (opacity only affects alpha); entry 0 has alpha 0; and
the alpha of entry i is (i/255) * opacity rounded to three decimal places
(the toFixed(3) formatting of the alpha channel), not the exact product. -/
theorem c6_lut_amended (s : ColorScaleId) (o o2 : ℚ) (cache : LutCache) :
    (buildColorLUTCached (buildColorLUTCached cache s o).2 s o).1 =
      (buildColorLUTCached cache s o).1 ∧
    (buildColorLUT s o).length = 256 ∧
    (∀ i : ℕ,
      ((buildColorLUT s o)[i]?).map Rgba.r = ((buildColorLUT s o2)[i]?).map Rgba.r ∧
      ((buildColorLUT s o)[i]?).map Rgba.g = ((buildColorLUT s o2)[i]?).map Rgba.g ∧
      ((buildColorLUT s o)[i]?).map Rgba.b = ((buildColorLUT s o2)[i]?).map Rgba.b) ∧
    ((buildColorLUT s o)[0]?).map Rgba.a = some 0 ∧
    (∀ i : ℕ, ((buildColorLUT s o)[i]?).map Rgba.a =
      if i < 256 then some (toFixed3 (((i : ℚ) / 255) * o)) else none) := by
  refine ⟨?_, buildColorLUT_length s o, ?_, ?_, ?_⟩
  · simp only [buildColorLUTCached]
    cases h : lutCacheFind cache (s, toFixed2 o) with
    | some lut => simp [h]
    | none => simp [h, lutCacheFind, List.find?]
  · intro i
    rcases Nat.lt_or_ge i 256 with hi | hi
    · rw [buildColorLUT_getElem s o i hi, buildColorLUT_getElem s o2 i hi]
      simp [lutEntry]
    · rw [buildColorLUT_getElem_none s o i hi, buildColorLUT_getElem_none s o2 i hi]
      simp
  · rw [buildColorLUT_getElem s o 0 (by norm_num)]
    simp [lutEntry, toFixed3]
  · intro i
    rcases Nat.lt_or_ge i 256 with hi | hi
    · rw [buildColorLUT_getElem s o i hi, if_pos hi]
      simp [lutEntry]
    · rw [buildColorLUT_getElem_none s o i hi, if_neg (by omega)]
      simp

/-- Claim C6, counterexample to the claim as stated: the alpha of entry 1
of the thermal LUT at opacity 1 is 0.004 (the toFixed(3) rounding), which
is not equal to (1/255) * 1. -/
theorem c6_counterexample :
    ((buildColorLUT .thermal 1)[1]?).map Rgba.a = some (1/250) ∧
    ((1 : ℚ)/250) ≠ ((1 : ℚ)/255) * 1 := by
  constructor
  · rw [buildColorLUT_getElem .thermal 1 1 (by norm_num)]
    simp only [Option.map_some, Option.some.injEq, lutEntry]
    norm_num [toFixed3, round_eq]
  · norm_num

/-- Claim C5 (amended): setOpacity changes neither the number of live
primitives nor any coordinate ring, and for each primitive it replaces
only the alpha component, setting it to
min(v, previousAlpha > 0 ? v : 0) rounded to three decimal places (the
toFixed(3) formatting), with r, g, b unchanged and no geometry
recomputation. -/
theorem c5_opacity_fast_path_amended (v : ℚ) (pool : List Prim) :
    (rendererSetOpacity v pool).length = pool.length ∧
    (∀ i : ℕ, ((rendererSetOpacity v pool)[i]?).map Prim.coords =
      (pool[i]?).map Prim.coords) ∧
    (∀ i : ℕ, ((rendererSetOpacity v pool)[i]?).map Prim.color =
      (pool[i]?).map (fun p =>
        (⟨p.color.r, p.color.g, p.color.b,
          toFixed3 (min v (if 0 < p.color.a then v else 0))⟩ : Rgba))) := by
  refine ⟨by simp [rendererSetOpacity], ?_, ?_⟩ <;> intro i <;>
    cases h : pool[i]? <;>
      simp [rendererSetOpacity, List.getElem?_map, h, setAlpha]

/-- Claim C5, counterexample to the claim as stated: with requested
opacity 1/1600 = 0.000625 and a primitive of positive alpha 0.5, the code
stores alpha 0.001 (the toFixed(3) rounding), not the claimed
min(0.000625, 0.000625) = 0.000625. -/
theorem c5_counterexample :
    ((rendererSetOpacity (1/1600) [⟨[], ⟨0, 0, 255, 1/2⟩⟩])[0]?).map (fun p => p.color.a) =
      some (1/1000) ∧
    ((1 : ℚ)/1000) ≠ min ((1 : ℚ)/1600) (if (0 : ℚ) < 1/2 then (1 : ℚ)/1600 else 0) := by
  constructor
  · simp only [rendererSetOpacity, List.map_cons, List.map_nil, setAlpha]
    norm_num [toFixed3, round_eq]
  · norm_num

/-- Claim C10: for a score in the unit interval, the LUT index
Math.round(score * 255) computed by the street and intersection renderers
lies in [0, 255], so the lookup into the 256-entry LUT is in bounds and
yields the defined rgba entry. -/
theorem c10_lut_index_safe (s : ColorScaleId) (o : ℚ) (score : ℚ)
    (h0 : 0 ≤ score) (h1 : score ≤ 1) :
    0 ≤ colorIdx score ∧ colorIdx score ≤ 255 ∧
    scoreColor s o score = some (lutEntry (scaleStops s) o (colorIdx score).toNat) := by
  have hge : 0 ≤ colorIdx score := by
    rw [colorIdx, round_eq]
    apply Int.le_floor.mpr
    push_cast
    nlinarith
  have hle : colorIdx score ≤ 255 := by
    rw [colorIdx, round_eq]
    have h : (score * 255 + 1/2 : ℚ) < ((256 : ℤ) : ℚ) := by push_cast; nlinarith
    have := Int.floor_lt.mpr h
    omega
  refine ⟨hge, hle, ?_⟩
  rw [scoreColor, buildColorLUT_getElem s o _ (by omega)]

/-- Witness for c10_lut_index_safe at score 1/2. -/
theorem c10_witness :
    (0 ≤ (1 : ℚ)/2 ∧ (1 : ℚ)/2 ≤ 1) ∧
    (0 ≤ colorIdx (1/2) ∧ colorIdx (1/2) ≤ 255 ∧
      scoreColor .thermal 1 (1/2) =
        some (lutEntry (scaleStops .thermal) 1 (colorIdx (1/2)).toNat)) :=
  ⟨⟨by norm_num, by norm_num⟩, c10_lut_index_safe .thermal 1 (1/2) (by norm_num) (by norm_num)⟩

/-! ### Loader and controller lemmas -/

/-- After deleting a key, the cache lookup for it is none. -/
lemma cacheLookup_cacheErase (c : DataCache) (layerId : String) :
    cacheLookup (cacheErase c layerId) layerId = none := by
  have h : List.find? (fun e => decide (e.1 = layerId))
      (List.filter (fun e => decide (e.1 ≠ layerId)) c) = none := by
    rw [List.find?_eq_none]
    intro x hx
    simp only [List.mem_filter, decide_eq_true_eq] at hx
    simp [hx.2]
  simp [cacheLookup, cacheErase, h]

/-- Claim C7: for a layer whose registry source is remote, a failed fetch
(non-success response or malformed body) makes the load operation reject
with an error and leaves the data cache unchanged — in particular with no
entry for that layer id — for each of the three loaders. -/
theorem c7_load_failure (reg : List RegisteredLayer)
    (gens : String → Option (List HeatmapPoint)) (cache : DataCache) (layerId : String)
    (entry : RegisteredLayer) (fp : FetchOutcome (List HeatmapPoint))
    (fs : FetchOutcome (List StreetSegment)) (fi : FetchOutcome (List ScoredIntersection))
    (hmiss : cacheLookup cache layerId = none)
    (hfind : reg.find? (fun e => decide (e.config.id = layerId)) = some entry)
    (hfp : fp.failed) (hfs : fs.failed) (hfi : fi.failed) :
    (∀ u, entry.source = .url u →
      (∃ msg, (loadLayerData reg gens cache layerId fp).1 = .error msg) ∧
      (loadLayerData reg gens cache layerId fp).2 = cache ∧
      cacheLookup (loadLayerData reg gens cache layerId fp).2 layerId = none) ∧
    (∀ u, entry.source = .streets u →
      (∃ msg, (loadStreetData reg cache layerId fs).1 = .error msg) ∧
      (loadStreetData reg cache layerId fs).2 = cache ∧
      cacheLookup (loadStreetData reg cache layerId fs).2 layerId = none) ∧
    (∀ u, entry.source = .intersections u →
      (∃ msg, (loadIntersectionData reg cache layerId fi).1 = .error msg) ∧
      (loadIntersectionData reg cache layerId fi).2 = cache ∧
      cacheLookup (loadIntersectionData reg cache layerId fi).2 layerId = none) := by
  refine ⟨?_, ?_, ?_⟩ <;> intro u hsrc
  · cases fp with
    | ok b => exact absurd hfp (by simp [FetchOutcome.failed])
    | httpError s => simp [loadLayerData, hmiss, hfind, hsrc, fetchJSON]
    | malformed => simp [loadLayerData, hmiss, hfind, hsrc, fetchJSON]
  · cases fs with
    | ok b => exact absurd hfs (by simp [FetchOutcome.failed])
    | httpError s => simp [loadStreetData, hmiss, hfind, hsrc, fetchJSON]
    | malformed => simp [loadStreetData, hmiss, hfind, hsrc, fetchJSON]
  · cases fi with
    | ok b => exact absurd hfi (by simp [FetchOutcome.failed])
    | httpError s => simp [loadIntersectionData, hmiss, hfind, hsrc, fetchJSON]
    | malformed => simp [loadIntersectionData, hmiss, hfind, hsrc, fetchJSON]

/-- Witness for c7_load_failure: the traffic layer (a streets source) with
a cold cache and an HTTP 500 response. -/
theorem c7_witness :
    (cacheLookup ([] : DataCache) "traffic" = none ∧
      LAYER_REGISTRY.find? (fun e => decide (e.config.id = "traffic")) =
        some (LAYER_REGISTRY.get ⟨2, by simp [LAYER_REGISTRY]⟩) ∧
      (FetchOutcome.httpError (α := List StreetSegment) 500).failed) ∧
    ((LAYER_REGISTRY.get ⟨2, by simp [LAYER_REGISTRY]⟩).source = .streets "/api/heatmap/streets" →
      (∃ msg, (loadStreetData LAYER_REGISTRY [] "traffic" (.httpError 500)).1 = .error msg) ∧
      (loadStreetData LAYER_REGISTRY [] "traffic" (.httpError 500)).2 = [] ∧
      cacheLookup (loadStreetData LAYER_REGISTRY [] "traffic" (.httpError 500)).2 "traffic" = none) :=
  ⟨⟨rfl, by simp [LAYER_REGISTRY, List.find?], by simp [FetchOutcome.failed]⟩,
   (c7_load_failure LAYER_REGISTRY (fun _ => none) [] "traffic" _
      (.malformed) (.httpError 500) (.malformed) rfl
      (by simp [LAYER_REGISTRY, List.find?]) (by simp [FetchOutcome.failed])
      (by simp [FetchOutcome.failed]) (by simp [FetchOutcome.failed])).2.1
     "/api/heatmap/streets"⟩

/-- Claim C8: when activation fails — the layer id has no config, or the
awaited load of an uncached layer rejects (for example a streets source
answering HTTP 500) — the activation settles with no active layer id, the
renderer reference cleared (its pooled primitives detached), and the
loading flag false. -/
theorem c8_activation_failure (reg : List RegisteredLayer) (renderOf : CacheVal → List Prim)
    (st : CtrlState) (layerId : String) (loadResult : Except String CacheVal)
    (hfail : getLayerConfig reg layerId = none ∨
      (cacheLookup st.dataCache layerId = none ∧ ∃ e, loadResult = .error e)) :
    (activateLayer reg renderOf st layerId true loadResult).activeId = none ∧
    (activateLayer reg renderOf st layerId true loadResult).renderer = none ∧
    (activateLayer reg renderOf st layerId true loadResult).isLoading = false := by
  rcases hfail with hcfg | ⟨hmiss, e, herr⟩
  · simp [activateLayer, hcfg, activateFail]
  · cases hcfg : getLayerConfig reg layerId with
    | none => simp [activateLayer, hcfg, activateFail]
    | some c => simp [activateLayer, hcfg, hmiss, herr, activateFail]

/-- Witness for c8_activation_failure: activating the traffic layer with a
cold cache while its streets source answers HTTP 500. -/
theorem c8_witness :
    (getLayerConfig LAYER_REGISTRY "traffic" = none ∨
      (cacheLookup (([] : DataCache)) "traffic" = none ∧
        ∃ e, (Except.error "Failed to fetch heatmap data" : Except String CacheVal) = .error e)) ∧
    ((activateLayer LAYER_REGISTRY (fun _ => [])
        ⟨none, false, none, [], DEFAULT_LAYER_OPACITY⟩ "traffic" true
        (.error "Failed to fetch heatmap data")).activeId = none ∧
      (activateLayer LAYER_REGISTRY (fun _ => [])
        ⟨none, false, none, [], DEFAULT_LAYER_OPACITY⟩ "traffic" true
        (.error "Failed to fetch heatmap data")).renderer = none ∧
      (activateLayer LAYER_REGISTRY (fun _ => [])
        ⟨none, false, none, [], DEFAULT_LAYER_OPACITY⟩ "traffic" true
        (.error "Failed to fetch heatmap data")).isLoading = false) :=
  ⟨Or.inr ⟨rfl, ⟨_, rfl⟩⟩,
   c8_activation_failure LAYER_REGISTRY (fun _ => [])
     ⟨none, false, none, [], DEFAULT_LAYER_OPACITY⟩ "traffic"
     (.error "Failed to fetch heatmap data") (Or.inr ⟨rfl, ⟨_, rfl⟩⟩)⟩

/-! ### Restoration lemmas -/

/-- The restore effect is a no-op once the guard is set. -/
lemma runRestoreEffect_restored (st : HookRestoreState) (h : st.restored = true) :
    runRestoreEffect st = st := by
  cases hm : st.mapEl <;> cases ha : st.activeId <;> simp [runRestoreEffect, hm, ha, h]

/-- Callback-identity re-runs never re-activate once the guard is set. -/
lemma foldl_callbackRerun (k : ℕ) (st : HookRestoreState) (h : st.restored = true) :
    List.foldl hookStep st (List.replicate k .callbackRerun) = st := by
  induction k with
  | zero => rfl
  | succ k ih =>
    rw [List.replicate_succ, List.foldl_cons,
        show hookStep st .callbackRerun = st from runRestoreEffect_restored st h]
    exact ih

/-- Claim C9 (amended): constructed with an already-active layer id, the
controller performs exactly one restoration activation when the surface
first becomes available, and the guard prevents any further activation on
effect re-runs (callback identity changes) while the surface reference is
unchanged; but a change to a new surface reference resets the guard and
performs one fresh restoration pass for the new surface. -/
theorem c9_restoration_amended (a : String) (m k : ℕ) :
    (hookStep ⟨none, some a, false, 0⟩ (.surface (some m))).activations = 1 ∧
    (hookStep ⟨none, some a, false, 0⟩ (.surface (some m))) = ⟨some m, some a, true, 1⟩ ∧
    (List.foldl hookStep (hookStep ⟨none, some a, false, 0⟩ (.surface (some m)))
      (List.replicate k .callbackRerun)).activations = 1 ∧
    (∀ m2 : ℕ, m2 ≠ m →
      (hookStep (hookStep ⟨none, some a, false, 0⟩ (.surface (some m)))
        (.surface (some m2))).activations = 2) := by
  have h1 : hookStep ⟨none, some a, false, 0⟩ (.surface (some m)) = ⟨some m, some a, true, 1⟩ := by
    simp [hookStep, runRestoreEffect]
  refine ⟨by rw [h1], h1, by rw [h1, foldl_callbackRerun k _ rfl], ?_⟩
  intro m2 hne
  rw [h1]
  simp [hookStep, runRestoreEffect, hne]

/-- Witness for c9_restoration_amended at surface 1, then surface 2. -/
theorem c9_witness :
    ((2 : ℕ) ≠ 1) ∧
    (hookStep ⟨none, some "walkability", false, 0⟩ (.surface (some 1))).activations = 1 ∧
    (hookStep (hookStep ⟨none, some "walkability", false, 0⟩ (.surface (some 1)))
      (.surface (some 2))).activations = 2 :=
  ⟨by norm_num, (c9_restoration_amended "walkability" 1 0).1,
   (c9_restoration_amended "walkability" 1 0).2.2.2 2 (by norm_num)⟩

/-- Claim C9, counterexample to the claim as stated: after the single
restoration on the first surface, a change of the surface reference (the
cleanup effect resets the restoredRef guard) performs a second restoration
activation. -/
theorem c9_counterexample :
    (hookStep ⟨none, some "walkability", false, 0⟩ (.surface (some 1))).activations = 1 ∧
    (hookStep (hookStep ⟨none, some "walkability", false, 0⟩ (.surface (some 1)))
      (.surface (some 2))).activations = 2 := by
  constructor <;> simp [hookStep, runRestoreEffect]

/-! ### Controller setOpacity (claim C4) -/

/-- Claim C4 (amended): with a layer active and a live renderer,
setOpacity(0.2) leaves the live primitive count and every coordinate ring
unchanged, sets every positive alpha channel to exactly 0.2 and leaves
zero alphas at 0 (a decrease only for primitives whose alpha exceeded
0.2 — alphas below 0.2 increase), and erases the cached data for the
active layer id. -/
theorem c4_opacity_scenario_amended (st : CtrlState) (layerId : String) (pool : List Prim)
    (hact : st.activeId = some layerId) (hrend : st.renderer = some pool)
    (hop : st.opacity = DEFAULT_LAYER_OPACITY) :
    ((hookSetOpacity st (1/5)).renderer.map List.length = some pool.length) ∧
    ((hookSetOpacity st (1/5)).renderer.map (fun q => q.map Prim.coords) =
      some (pool.map Prim.coords)) ∧
    ((hookSetOpacity st (1/5)).renderer.map (fun q => q.map (fun p => p.color.a)) =
      some (pool.map (fun p => if 0 < p.color.a then (1/5 : ℚ) else 0))) ∧
    cacheLookup (hookSetOpacity st (1/5)).dataCache layerId = none ∧
    (hookSetOpacity st (1/5)).opacity = 1/5 := by
  have halpha : ∀ p : Prim, (setAlpha (1/5) p.color).a =
      if 0 < p.color.a then (1/5 : ℚ) else 0 := by
    intro p
    by_cases h : 0 < p.color.a <;>
      simp [setAlpha, h] <;> norm_num [toFixed3, round_eq]
  simp only [hookSetOpacity, hrend, hact]
  refine ⟨?_, ?_, ?_, ?_, ?_⟩
  · simp [rendererSetOpacity]
  · simp [rendererSetOpacity, setAlpha]
  · simp only [rendererSetOpacity, Option.map_some', Option.some.injEq, List.map_map]
    refine List.map_congr_left ?_
    intro a _
    simpa using halpha a
  · exact cacheLookup_cacheErase _ _
  · trivial

/-- Witness for c4_opacity_scenario_amended at the concrete C4 state. -/
theorem c4_witness :
    (c4State.activeId = some "walkability" ∧
      c4State.renderer = some [⟨[], lutEntry (scaleStops .thermal) DEFAULT_LAYER_OPACITY 10⟩] ∧
      c4State.opacity = DEFAULT_LAYER_OPACITY) ∧
    (((hookSetOpacity c4State (1/5)).renderer.map List.length = some 1) ∧
      cacheLookup (hookSetOpacity c4State (1/5)).dataCache "walkability" = none ∧
      (hookSetOpacity c4State (1/5)).opacity = 1/5) := by
  have h := c4_opacity_scenario_amended c4State "walkability"
    [⟨[], lutEntry (scaleStops .thermal) DEFAULT_LAYER_OPACITY 10⟩] rfl rfl rfl
  exact ⟨⟨rfl, rfl, rfl⟩, ⟨h.1, h.2.2.2.1, h.2.2.2.2⟩⟩

/-- Claim C4, counterexample to the claim as stated: in the C4 scenario a
live primitive colored at intensity 10 has alpha 0.022; setOpacity(0.2)
sets it to 0.2, so its alpha channel increases rather than decreases. -/
theorem c4_counterexample :
    (lutEntry (scaleStops .thermal) DEFAULT_LAYER_OPACITY 10).a = 11/500 ∧
    ((hookSetOpacity c4State (1/5)).renderer.map (fun q => q.map (fun p => p.color.a)) =
      some [1/5]) ∧
    ¬ ((1 : ℚ)/5 < 11/500) := by
  have ha : (lutEntry (scaleStops .thermal) DEFAULT_LAYER_OPACITY 10).a = 11/500 := by
    simp only [lutEntry, DEFAULT_LAYER_OPACITY]
    norm_num [toFixed3, round_eq]
  refine ⟨ha, ?_, by norm_num⟩
  simp only [c4State, hookSetOpacity, rendererSetOpacity, setAlpha, List.map_cons, List.map_nil]
  simp [ha]
  norm_num [toFixed3, round_eq]

/-! ### Pooled render machinery lemmas -/

/-- A finished run is inert. -/
lemma stepRun_done {D P : Type} (mk : D → P) (st : RendererState P) (r : RenderRun D)
    (h : r.done = true) : stepRun mk st r = (st, r) := by
  simp [stepRun, h]

/-- A superseded run that observes the abort signal at its next suspension
point stops without any pool or host mutation. -/
lemma stepRun_abort {D P : Type} (mk : D → P) (st : RendererState P) (r : RenderRun D)
    (h1 : r.done = false) (h2 : r.gen ≠ st.curGen) :
    stepRun mk st r = (st, { r with done := true }) := by
  simp [stepRun, h1, h2]

/-- A superseded or finished run never mutates the renderer state. -/
lemma stepRun_aborted_fst {D P : Type} (mk : D → P) (st : RendererState P) (r : RenderRun D)
    (h2 : r.gen ≠ st.curGen) : (stepRun mk st r).1 = st := by
  cases hd : r.done
  · rw [stepRun_abort mk st r hd h2]
  · rw [stepRun_done mk st r hd]

/-- The live branch of stepRun, written out. -/
lemma stepRun_run_eq {D P : Type} (mk : D → P) (st : RendererState P) (r : RenderRun D)
    (hd : r.done = false) (hg : r.gen = st.curGen) :
    stepRun mk st r =
      (let start := if r.started then r.poolStart else st.pool.length
       let e := min (r.idx + POLYGON_BATCH_SIZE) r.descs.length
       let pool1 := writeBatch mk start r.descs st.pool r.idx (e - r.idx)
       if e < r.descs.length then
         ({ st with pool := pool1 },
          { r with started := true, poolStart := start, idx := e })
       else
         ({ st with pool := if r.descs.length < start then pool1.take r.descs.length else pool1 },
          { r with started := true, poolStart := start, idx := e, done := true })) := by
  simp [stepRun, hd, hg]

/-- stepRun never changes the current abort generation. -/
lemma stepRun_curGen {D P : Type} (mk : D → P) (st : RendererState P) (r : RenderRun D) :
    (stepRun mk st r).1.curGen = st.curGen := by
  cases hd : r.done
  · by_cases hg : r.gen = st.curGen
    · rw [stepRun_run_eq mk st r hd hg]
      dsimp only
      split <;> rfl
    · rw [stepRun_abort mk st r hd hg]
  · rw [stepRun_done mk st r hd]

/-- stepRun never changes the generation token of the run. -/
lemma stepRun_gen {D P : Type} (mk : D → P) (st : RendererState P) (r : RenderRun D) :
    (stepRun mk st r).2.gen = r.gen := by
  cases hd : r.done
  · by_cases hg : r.gen = st.curGen
    · rw [stepRun_run_eq mk st r hd hg]
      dsimp only
      split <;> rfl
    · rw [stepRun_abort mk st r hd hg]
  · rw [stepRun_done mk st r hd]

/-- Writing descriptor i into the pool invariant shape advances it by one:
indices below the captured pool size are recycled in place, the next index
is appended. -/
lemma putPrim_step {D P : Type} (mk : D → P) (p0 : List P) (descs : List D) (i : ℕ)
    (h : i < descs.length) :
    putPrim p0.length ((descs.take i).map mk ++ p0.drop i) i (mk (descs.get ⟨i, h⟩)) =
      (descs.take (i + 1)).map mk ++ p0.drop (i + 1) := by
  have hlen : ((descs.take i).map mk).length = i := by
    simp [List.length_take]
    omega
  have htake : (descs.take (i + 1)).map mk =
      (descs.take i).map mk ++ [mk (descs.get ⟨i, h⟩)] := by
    simp only [List.take_succ, List.getElem?_eq_getElem h, Option.toList_some,
      List.map_append, List.map_cons, List.map_nil, List.get_eq_getElem]
  unfold putPrim
  by_cases hip : i < p0.length
  · rw [if_pos hip]
    rw [List.set_append_right _ _ (by omega)]
    have h0 : i - ((descs.take i).map mk).length = 0 := by omega
    rw [h0, htake, List.append_assoc]
    congr 1
    rw [List.drop_eq_getElem_cons hip, List.set_cons_zero, List.singleton_append,
      List.get_eq_getElem]
  · rw [if_neg hip]
    have hd0 : p0.drop i = [] := List.drop_eq_nil_of_le (by omega)
    have hd1 : p0.drop (i + 1) = [] := List.drop_eq_nil_of_le (by omega)
    rw [hd0, hd1, htake]
    simp

/-- The batch loop preserves the pool invariant shape across cnt writes. -/
lemma writeBatch_spec {D P : Type} (mk : D → P) (p0 : List P) (descs : List D) :
    ∀ (cnt i : ℕ), i + cnt ≤ descs.length →
      writeBatch mk p0.length descs ((descs.take i).map mk ++ p0.drop i) i cnt =
        (descs.take (i + cnt)).map mk ++ p0.drop (i + cnt) := by
  intro cnt
  induction cnt with
  | zero => intro i h; simp [writeBatch]
  | succ cnt ih =>
    intro i h
    have hi : i < descs.length := by omega
    have hget : descs[i]? = some (descs.get ⟨i, hi⟩) := by
      rw [List.getElem?_eq_getElem hi, List.get_eq_getElem]
    simp only [writeBatch, hget]
    rw [putPrim_step mk p0 descs i hi]
    have heq : i + (cnt + 1) = (i + 1) + cnt := by omega
    rw [heq]
    exact ih (i + 1) (by omega)

/-- startRender establishes the run invariant for the new run. -/
lemma startRender_inv {D P : Type} (mk : D → P) (st : RendererState P) (descs : List D) :
    RunInv mk st.pool descs (startRender st descs).1 (startRender st descs).2 := by
  refine ⟨rfl, rfl, Nat.zero_le _, fun _ _ => ⟨rfl, rfl⟩, fun _ hs => ?_, fun hdone => ?_⟩
  · exact absurd hs (by simp [startRender])
  · exact absurd hdone (by simp [startRender])

/-- One stepRun preserves the run invariant. -/
lemma stepRun_inv {D P : Type} (mk : D → P) (p0 : List P) (descs : List D)
    (st : RendererState P) (r : RenderRun D) (h : RunInv mk p0 descs st r) :
    RunInv mk p0 descs (stepRun mk st r).1 (stepRun mk st r).2 := by
  obtain ⟨h1, h2, h3, h4, h5, h6⟩ := h
  cases hd : r.done
  case true =>
    rw [stepRun_done mk st r hd]
    exact ⟨h1, h2, h3, h4, h5, h6⟩
  case false =>
    rw [stepRun_run_eq mk st r hd h2]
    dsimp only
    have hstart_eq : (if r.started then r.poolStart else st.pool.length) = p0.length := by
      cases hs : r.started
      · obtain ⟨_, hpool⟩ := h4 hd hs
        simp [hpool]
      · obtain ⟨hps, _⟩ := h5 hd hs
        simp [hps]
    have hpool_cur : st.pool = (descs.take r.idx).map mk ++ p0.drop r.idx := by
      cases hs : r.started
      · obtain ⟨hidx0, hpool⟩ := h4 hd hs
        simp [hpool, hidx0]
      · exact (h5 hd hs).2
    have hnn : r.descs.length = descs.length := by rw [h1]
    have hidx_e : r.idx ≤ min (r.idx + POLYGON_BATCH_SIZE) r.descs.length := by
      have : r.idx ≤ descs.length := h3
      omega
    have he_le : min (r.idx + POLYGON_BATCH_SIZE) r.descs.length ≤ descs.length := by
      omega
    have hbatch : writeBatch mk (if r.started then r.poolStart else st.pool.length)
        r.descs st.pool r.idx (min (r.idx + POLYGON_BATCH_SIZE) r.descs.length - r.idx) =
        (descs.take (min (r.idx + POLYGON_BATCH_SIZE) r.descs.length)).map mk ++
          p0.drop (min (r.idx + POLYGON_BATCH_SIZE) r.descs.length) := by
      rw [hstart_eq, h1, hpool_cur]
      have hw := writeBatch_spec mk p0 descs
        (min (r.idx + POLYGON_BATCH_SIZE) descs.length - r.idx) r.idx (by omega)
      have heq : r.idx + (min (r.idx + POLYGON_BATCH_SIZE) descs.length - r.idx) =
          min (r.idx + POLYGON_BATCH_SIZE) descs.length := by omega
      rw [heq] at hw
      exact hw
    by_cases hlt : min (r.idx + POLYGON_BATCH_SIZE) r.descs.length < r.descs.length
    · rw [if_pos hlt]
      refine ⟨h1, h2, by dsimp only; omega, ?_, ?_, ?_⟩
      · intro _ hcontra
        exact absurd hcontra (by simp)
      · intro _ _
        exact ⟨hstart_eq, hbatch⟩
      · intro hcontra
        simp [hd] at hcontra
    · rw [if_neg hlt]
      have he_n : min (r.idx + POLYGON_BATCH_SIZE) r.descs.length = r.descs.length := by
        omega
      have hfull : (descs.take (min (r.idx + POLYGON_BATCH_SIZE) r.descs.length)).map mk ++
          p0.drop (min (r.idx + POLYGON_BATCH_SIZE) r.descs.length) =
          descs.map mk ++ p0.drop descs.length := by
        rw [he_n, hnn, List.take_length]
      have hpool2 : (if r.descs.length <
            (if r.started then r.poolStart else st.pool.length) then
            (writeBatch mk (if r.started then r.poolStart else st.pool.length)
              r.descs st.pool r.idx
              (min (r.idx + POLYGON_BATCH_SIZE) r.descs.length - r.idx)).take r.descs.length
          else
            writeBatch mk (if r.started then r.poolStart else st.pool.length)
              r.descs st.pool r.idx
              (min (r.idx + POLYGON_BATCH_SIZE) r.descs.length - r.idx)) =
          descs.map mk := by
        rw [hbatch, hfull, hstart_eq, hnn]
        by_cases hsh : descs.length < p0.length
        · rw [if_pos hsh]
          rw [show descs.length = (descs.map mk).length from by simp]
          exact List.take_left _ _
        · rw [if_neg hsh]
          rw [List.drop_eq_nil_of_le (by omega), List.append_nil]
      refine ⟨h1, h2, by dsimp only; omega, ?_, ?_, ?_⟩
      · intro hcontra
        exact absurd hcontra (by simp)
      · intro hcontra
        exact absurd hcontra (by simp)
      · intro _
        exact hpool2

/-- execRun preserves the run invariant. -/
lemma execRun_inv {D P : Type} (mk : D → P) (p0 : List P) (descs : List D) :
    ∀ (fuel : ℕ) (st : RendererState P) (r : RenderRun D), RunInv mk p0 descs st r →
      RunInv mk p0 descs (execRun mk fuel st r).1 (execRun mk fuel st r).2 := by
  intro fuel
  induction fuel with
  | zero => intro st r h; simpa [execRun] using h
  | succ fuel ih =>
    intro st r h
    rw [execRun]
    cases hd : r.done
    · simp only [hd, Bool.false_eq_true, if_false]
      exact ih _ _ (stepRun_inv mk p0 descs st r h)
    · simp only [hd, if_true]
      exact h

/-- execRun never changes the current abort generation. -/
lemma execRun_curGen {D P : Type} (mk : D → P) :
    ∀ (fuel : ℕ) (st : RendererState P) (r : RenderRun D),
      (execRun mk fuel st r).1.curGen = st.curGen := by
  intro fuel
  induction fuel with
  | zero => intro st r; simp [execRun]
  | succ fuel ih =>
    intro st r
    rw [execRun]
    cases hd : r.done
    · simp only [hd, Bool.false_eq_true, if_false]
      rw [ih _ _, stepRun_curGen]
    · simp only [hd, if_true]

/-- execRun never changes the generation token of the run. -/
lemma execRun_gen {D P : Type} (mk : D → P) :
    ∀ (fuel : ℕ) (st : RendererState P) (r : RenderRun D),
      (execRun mk fuel st r).2.gen = r.gen := by
  intro fuel
  induction fuel with
  | zero => intro st r; simp [execRun]
  | succ fuel ih =>
    intro st r
    rw [execRun]
    cases hd : r.done
    · simp only [hd, Bool.false_eq_true, if_false]
      rw [ih _ _, stepRun_gen]
    · simp only [hd, if_true]

/-- Interleaving a superseded run with the current run preserves the
current run invariant: the superseded run never mutates anything. -/
lemma execSched_inv {D P : Type} (mk : D → P) (p0 : List P) (descs : List D) :
    ∀ (sched : List Bool) (st : RendererState P) (ra rb : RenderRun D),
      ra.gen ≠ st.curGen → RunInv mk p0 descs st rb →
      RunInv mk p0 descs (execSched mk sched st ra rb).1
        (execSched mk sched st ra rb).2.2 := by
  intro sched
  induction sched with
  | nil => intro st ra rb _ hinv; simpa [execSched] using hinv
  | cons c s ih =>
    intro st ra rb hga hinv
    cases c
    · rw [execSched]
      rw [stepRun_aborted_fst mk st ra hga]
      refine ih st (stepRun mk st ra).2 rb ?_ hinv
      rw [stepRun_gen]
      exact hga
    · rw [execSched]
      refine ih (stepRun mk st rb).1 ra (stepRun mk st rb).2 ?_
        (stepRun_inv mk p0 descs st rb hinv)
      rw [stepRun_curGen]
      exact hga

/-- After render(B) supersedes the in-flight run, any interleaving in
which B completes leaves the pool exactly at the primitives of the
descriptors of B. -/
lemma raceSettle {D P : Type} (mk : D → P) (s2 : RendererState P) (ra : RenderRun D)
    (dB : List D) (sched : List Bool) (hgen : ra.gen ≠ s2.curGen + 1)
    (hdone : (execSched mk sched (startRender s2 dB).1 ra (startRender s2 dB).2).2.2.done = true) :
    (execSched mk sched (startRender s2 dB).1 ra (startRender s2 dB).2).1.pool = dB.map mk := by
  have h := execSched_inv mk s2.pool dB sched (startRender s2 dB).1 ra (startRender s2 dB).2
    hgen (startRender_inv mk s2 dB)
  exact h.2.2.2.2.2 hdone

/-- Claim C1: for every renderer (the machinery is generic in the
descriptor-to-primitive mapping, covering the grid, street and
intersection renderers), when render(B) is issued while render(A) is in
flight, under every interleaving in which B settles the pool holds exactly
the primitives derived from the descriptors of B — the length equals the
descriptor count of B, each index i holds the primitive of descriptor i,
never a mixture — and the superseded run performs no pool or host
mutation once it observes the abort signal at a suspension point. -/
theorem c1_cancellation_safety {D P : Type} (mk : D → P) (p0 : List P) (g0 : ℕ)
    (dA dB : List D) (fA : ℕ) (sched : List Bool)
    (hdone : (cancellationScenario mk p0 g0 dA dB fA sched).2.2.done = true) :
    (cancellationScenario mk p0 g0 dA dB fA sched).1.pool = dB.map mk ∧
    (cancellationScenario mk p0 g0 dA dB fA sched).1.pool.length = dB.length ∧
    (∀ i : ℕ, (cancellationScenario mk p0 g0 dA dB fA sched).1.pool[i]? = (dB[i]?).map mk) ∧
    (∀ (st : RendererState P) (r : RenderRun D), r.done = false → r.gen ≠ st.curGen →
      stepRun mk st r = (st, { r with done := true })) := by
  have hmain : (cancellationScenario mk p0 g0 dA dB fA sched).1.pool = dB.map mk := by
    unfold cancellationScenario at hdone ⊢
    dsimp only at hdone ⊢
    refine raceSettle mk _ _ dB sched ?_ hdone
    have hg : (execRun mk fA (startRender (⟨p0, g0⟩ : RendererState P) dA).1
        (startRender (⟨p0, g0⟩ : RendererState P) dA).2).2.gen = g0 + 1 := by
      rw [execRun_gen]
      rfl
    have hc : (execRun mk fA (startRender (⟨p0, g0⟩ : RendererState P) dA).1
        (startRender (⟨p0, g0⟩ : RendererState P) dA).2).1.curGen = g0 + 1 := by
      rw [execRun_curGen]
      rfl
    rw [hg, hc]
    omega
  refine ⟨hmain, by rw [hmain]; simp, ?_, ?_⟩
  · intro i
    rw [hmain, List.getElem?_map]
  · intro st r h1 h2
    exact stepRun_abort mk st r h1 h2

/-- Witness for c1_cancellation_safety: render(A) of three descriptors is
superseded before its first batch by render(B) of one descriptor; the
schedule wakes A (which observes the abort), then B (which completes),
then A again. -/
theorem c1_witness :
    ((cancellationScenario (fun d => d + 100) ([] : List ℕ) 0 [1, 2, 3] [5] 0
        [false, true, false]).2.2.done = true) ∧
    ((cancellationScenario (fun d => d + 100) ([] : List ℕ) 0 [1, 2, 3] [5] 0
        [false, true, false]).1.pool = [5].map (fun d => d + 100) ∧
      (cancellationScenario (fun d => d + 100) ([] : List ℕ) 0 [1, 2, 3] [5] 0
        [false, true, false]).1.pool.length = [5].length ∧
      (∀ i : ℕ, (cancellationScenario (fun d => d + 100) ([] : List ℕ) 0 [1, 2, 3] [5] 0
        [false, true, false]).1.pool[i]? = ([5][i]?).map (fun d => d + 100)) ∧
      (∀ (st : RendererState ℕ) (r : RenderRun ℕ), r.done = false → r.gen ≠ st.curGen →
        stepRun (fun d => d + 100) st r = (st, { r with done := true }))) :=
  ⟨by decide, c1_cancellation_safety (fun d => d + 100) [] 0 [1, 2, 3] [5] 0
    [false, true, false] (by decide)⟩

/-- A completed render leaves the pool exactly at the rendered
descriptors. -/
lemma completesTo_pool {D P : Type} (mk : D → P) (st : RendererState P) (descs : List D)
    (st2 : RendererState P) (h : CompletesTo mk st descs st2) : st2.pool = descs.map mk := by
  obtain ⟨fuel, h1, h2⟩ := h
  have hinv := execRun_inv mk st.pool descs fuel (startRender st descs).1
    (startRender st descs).2 (startRender_inv mk st descs)
  have hfinal := hinv.2.2.2.2.2 h2
  rw [h1] at hfinal
  exact hfinal

/-- A chain of completed renders matches each pool to its data. -/
lemma chainRenders_forall₂ {D P : Type} (mk : D → P) :
    ∀ (ds : List (List D)) (st0 : RendererState P) (sts : List (RendererState P)),
      ChainRenders mk st0 ds sts →
      List.Forall₂ (fun d st2 => st2.pool = d.map mk ∧ st2.pool.length = d.length) ds sts := by
  intro ds
  induction ds with
  | nil =>
    intro st0 sts h
    simp only [ChainRenders] at h
    subst h
    exact List.Forall₂.nil
  | cons d ds ih =>
    intro st0 sts h
    simp only [ChainRenders] at h
    obtain ⟨st2, rest, rfl, hc, hrest⟩ := h
    have hp := completesTo_pool mk st0 d st2 hc
    exact List.Forall₂.cons ⟨hp, by rw [hp]; simp⟩ (ih st2 rest hrest)

/-- Claim C3: after N consecutive render() calls each run to completion
without cancellation, with data of decreasing length, the live primitive
count after each completed render equals that render descriptor count: the
excess tail is dropped from the pool, none leaks.  (The machinery is
generic in the descriptor-to-primitive mapping, covering the grid, street
and intersection renderers.) -/
theorem c3_pool_conservation {D P : Type} (mk : D → P) (st0 : RendererState P)
    (ds : List (List D)) (sts : List (RendererState P))
    (hdec : List.Chain' (fun a b => b.length < a.length) ds)
    (hchain : ChainRenders mk st0 ds sts) :
    List.Forall₂ (fun d st2 => st2.pool = d.map mk ∧ st2.pool.length = d.length) ds sts :=
  chainRenders_forall₂ mk ds st0 sts hchain

/-- Witness for c3_pool_conservation: from a stale pool of three
primitives, two completed renders of two then one descriptor leave pools
of exactly two then one primitives. -/
theorem c3_witness :
    (List.Chain' (fun (a b : List ℕ) => b.length < a.length) [[1, 2], [3]] ∧
      ChainRenders (fun d => d + 100) (⟨[7, 7, 7], 0⟩ : RendererState ℕ) [[1, 2], [3]]
        [⟨[101, 102], 1⟩, ⟨[103], 2⟩]) ∧
    List.Forall₂ (fun (d : List ℕ) (st2 : RendererState ℕ) =>
        st2.pool = d.map (fun d => d + 100) ∧ st2.pool.length = d.length)
      [[1, 2], [3]] [⟨[101, 102], 1⟩, ⟨[103], 2⟩] := by
  have hchain : ChainRenders (fun d => d + 100) (⟨[7, 7, 7], 0⟩ : RendererState ℕ)
      [[1, 2], [3]] [⟨[101, 102], 1⟩, ⟨[103], 2⟩] :=
    ⟨⟨[101, 102], 1⟩, [⟨[103], 2⟩], rfl, ⟨2, by decide, by decide⟩,
     ⟨[103], 2⟩, [], rfl, ⟨2, by decide, by decide⟩, rfl⟩
  have hdec : List.Chain' (fun (a b : List ℕ) => b.length < a.length) [[1, 2], [3]] := by
    simp [List.chain'_cons]
  exact ⟨⟨hdec, hchain⟩,
    c3_pool_conservation (fun d => d + 100) ⟨[7, 7, 7], 0⟩ [[1, 2], [3]]
      [⟨[101, 102], 1⟩, ⟨[103], 2⟩] hdec hchain⟩

/-! ### Engine sampling lemmas (claim C2) -/

/-- sampleCell in terms of centerIntensity. -/
lemma sampleCell_eq (img : ImageDataM) (rows cols : ℕ) (scaleId : ColorScaleId)
    (opacity : ℚ) (threshold : ℕ) (row col : ℕ) :
    sampleCell img rows cols scaleId opacity threshold row col =
      if centerIntensity img rows cols row col < threshold then none
      else some ((buildColorLUT scaleId opacity).getD
        (centerIntensity img rows cols row col) ⟨0, 0, 0, 0⟩) := rfl

/-- Row-major indexing into the nested range traversal. -/
lemma flatMap_range_map_getElem {α : Type} (rows cols : ℕ) (f : ℕ → ℕ → α) (row col : ℕ)
    (hr : row < rows) (hc : col < cols) :
    ((List.range rows).flatMap (fun r => (List.range cols).map (f r)))[row * cols + col]? =
      some (f row col) := by
  have hsplit : rows = row + (rows - row) := by omega
  rw [hsplit, List.range_add, List.flatMap_append]
  have hlen : ((List.range row).flatMap (fun r => (List.range cols).map (f r))).length =
      row * cols := by
    simp only [List.length_flatMap]
    have hcomp : (List.length ∘ fun r => List.map (f r) (List.range cols)) =
        fun (_ : ℕ) => cols := by
      funext r
      simp
    rw [hcomp, List.map_const']
    simp [List.sum_replicate, smul_eq_mul]
  rw [List.getElem?_append_right (by rw [hlen]; omega)]
  rw [hlen]
  have hidx : row * cols + col - row * cols = col := by omega
  rw [hidx]
  have hm : rows - row = (rows - row - 1) + 1 := by omega
  rw [hm, List.range_succ_eq_map, List.map_cons, List.flatMap_cons]
  rw [List.getElem?_append]
  rw [if_pos (by simp [hc])]
  rw [List.getElem?_map, List.getElem?_range hc]
  simp

/-- Every descriptor built by buildCellData comes from a non-null cell:
the grid renderer never creates or recycles a primitive for a null cell. -/
lemma buildCellData_sound (g : HeatmapGrid) :
    ∀ d ∈ buildCellData g, ∃ r2 c2, r2 < g.rows ∧ c2 < g.cols ∧
      g.cells[r2 * g.cols + c2]? = some (some d.fillColor) := by
  intro d hd
  simp only [buildCellData, List.mem_flatMap, List.mem_filterMap, List.mem_range] at hd
  obtain ⟨r2, hr2, c2, hc2, heq⟩ := hd
  refine ⟨r2, c2, hr2, hc2, ?_⟩
  cases hcell : g.cells[r2 * g.cols + c2]? with
  | none => rw [hcell] at heq; simp at heq
  | some oc =>
    cases oc with
    | none => rw [hcell] at heq; simp at heq
    | some color =>
      rw [hcell] at heq
      simp only [Option.some.injEq] at heq
      rw [← heq]

/-- Claim C2: in the grid computed by the engine, a cell is null exactly
when the raster intensity sampled at the cell centre (red channel, clamped
to 255) is strictly below minIntensityThreshold; otherwise it holds the
LUT entry at the sampled intensity; and the grid renderer builds a
descriptor only for non-null cells, never for a null cell. -/
theorem c2_threshold_invariant (img : ImageDataM) (cfg : HeatmapLayerConfig) (row col : ℕ)
    (hr : row < cfg.gridResolution) (hc : col < cfg.gridResolution) :
    ((computeHeatmapGrid img cfg).cells[row * (computeHeatmapGrid img cfg).cols + col]? =
      some (sampleCell img cfg.gridResolution cfg.gridResolution cfg.colorScale cfg.opacity
        cfg.minIntensityThreshold row col)) ∧
    (sampleCell img cfg.gridResolution cfg.gridResolution cfg.colorScale cfg.opacity
        cfg.minIntensityThreshold row col = none ↔
      centerIntensity img cfg.gridResolution cfg.gridResolution row col <
        cfg.minIntensityThreshold) ∧
    (cfg.minIntensityThreshold ≤
        centerIntensity img cfg.gridResolution cfg.gridResolution row col →
      sampleCell img cfg.gridResolution cfg.gridResolution cfg.colorScale cfg.opacity
          cfg.minIntensityThreshold row col =
        some (lutEntry (scaleStops cfg.colorScale) cfg.opacity
          (centerIntensity img cfg.gridResolution cfg.gridResolution row col))) ∧
    (∀ d ∈ buildCellData (computeHeatmapGrid img cfg), ∃ r2 c2,
      r2 < (computeHeatmapGrid img cfg).rows ∧ c2 < (computeHeatmapGrid img cfg).cols ∧
      (computeHeatmapGrid img cfg).cells[r2 * (computeHeatmapGrid img cfg).cols + c2]? =
        some (some d.fillColor)) := by
  refine ⟨?_, ?_, ?_, buildCellData_sound _⟩
  · exact flatMap_range_map_getElem cfg.gridResolution cfg.gridResolution _ row col hr hc
  · rw [sampleCell_eq]
    constructor
    · intro h
      by_contra hnot
      rw [if_neg (by omega)] at h
      exact Option.some_ne_none _ h
    · intro h
      rw [if_pos h]
  · intro h
    rw [sampleCell_eq, if_neg (by omega)]
    have hle : centerIntensity img cfg.gridResolution cfg.gridResolution row col < 256 := by
      have : centerIntensity img cfg.gridResolution cfg.gridResolution row col ≤ 255 := by
        unfold centerIntensity
        omega
      omega
    rw [List.getD_eq_getElem?_getD, buildColorLUT_getElem _ _ _ hle]
    rfl

/-- Witness for c2_threshold_invariant: a 1 pixel raster of intensity 200
against the walkability config at a 1 by 1 grid. -/
theorem c2_witness :
    ((0 : ℕ) < 1 ∧ (0 : ℕ) < 1) ∧
    (((computeHeatmapGrid ⟨1, 1, fun _ => 200⟩
        ⟨"walkability", .thermal, .grid, 25, 1, SF_BOUNDS, 10, DEFAULT_LAYER_OPACITY⟩).cells[
          (0 : ℕ) * (computeHeatmapGrid ⟨1, 1, fun _ => 200⟩
            ⟨"walkability", .thermal, .grid, 25, 1, SF_BOUNDS, 10, DEFAULT_LAYER_OPACITY⟩).cols + 0]? =
      some (sampleCell ⟨1, 1, fun _ => 200⟩ 1 1 .thermal DEFAULT_LAYER_OPACITY 10 0 0)) ∧
      (sampleCell ⟨1, 1, fun _ => 200⟩ 1 1 .thermal DEFAULT_LAYER_OPACITY 10 0 0 = none ↔
        centerIntensity ⟨1, 1, fun _ => 200⟩ 1 1 0 0 < 10) ∧
      ((10 : ℕ) ≤ centerIntensity ⟨1, 1, fun _ => 200⟩ 1 1 0 0 →
        sampleCell ⟨1, 1, fun _ => 200⟩ 1 1 .thermal DEFAULT_LAYER_OPACITY 10 0 0 =
          some (lutEntry (scaleStops .thermal) DEFAULT_LAYER_OPACITY
            (centerIntensity ⟨1, 1, fun _ => 200⟩ 1 1 0 0))) ∧
      (∀ d ∈ buildCellData (computeHeatmapGrid ⟨1, 1, fun _ => 200⟩
          ⟨"walkability", .thermal, .grid, 25, 1, SF_BOUNDS, 10, DEFAULT_LAYER_OPACITY⟩), ∃ r2 c2,
        r2 < (computeHeatmapGrid ⟨1, 1, fun _ => 200⟩
          ⟨"walkability", .thermal, .grid, 25, 1, SF_BOUNDS, 10, DEFAULT_LAYER_OPACITY⟩).rows ∧
        c2 < (computeHeatmapGrid ⟨1, 1, fun _ => 200⟩
          ⟨"walkability", .thermal, .grid, 25, 1, SF_BOUNDS, 10, DEFAULT_LAYER_OPACITY⟩).cols ∧
        (computeHeatmapGrid ⟨1, 1, fun _ => 200⟩
          ⟨"walkability", .thermal, .grid, 25, 1, SF_BOUNDS, 10, DEFAULT_LAYER_OPACITY⟩).cells[
            r2 * (computeHeatmapGrid ⟨1, 1, fun _ => 200⟩
              ⟨"walkability", .thermal, .grid, 25, 1, SF_BOUNDS, 10, DEFAULT_LAYER_OPACITY⟩).cols + c2]? =
          some (some d.fillColor))) :=
  ⟨⟨Nat.one_pos, Nat.one_pos⟩,
   c2_threshold_invariant ⟨1, 1, fun _ => 200⟩
     ⟨"walkability", .thermal, .grid, 25, 1, SF_BOUNDS, 10, DEFAULT_LAYER_OPACITY⟩ 0 0
     Nat.one_pos Nat.one_pos⟩

end Heatmap
